import Mathlib

/-!
Verification of the Control4 climate/fan reconciliation core
(`custom_components/control4/climate.py` and `custom_components/control4/fan.py`).

The Python code is shallowly embedded: Python dictionaries become ordered
association lists (`PyDict`), Python runtime exceptions become values of
`PyError`, numeric values are modelled as rationals, and each method of the
two entity classes becomes an executable Lean function that returns the list
of hub commands it dispatched together with the exception, if any, that the
call raises.  Mutation of `self._extra_state_attributes` / `_attr_available`
is modelled by explicit state passing; a method that raises after having
already mutated state returns the mutated state together with the error.
-/

/-- Model of a Python value as it appears in push messages and in the
attribute store: string, number (rationals standing in for int/float),
boolean, or nested dictionary (an ordered association list, as Python
dictionaries preserve insertion order). -/
inductive PyVal where
  | str : String → PyVal
  | num : ℚ → PyVal
  | bool : Bool → PyVal
  | dict : List (String × PyVal) → PyVal

/-- Ordered association list standing in for a Python dictionary. -/
abbrev PyDict := List (String × PyVal)

/-- Model of the Python exceptions this code can raise. -/
inductive PyError where
  | keyError : String → PyError
  | nameError : String → PyError
  | typeError : String → PyError
  | attributeError : String → PyError
  | c4Exception : String → PyError
  | updateFailed : String → PyError
deriving DecidableEq, Repr

/-- First value bound to a key, as Python `d[k]` finds it. -/
def lookupKey : PyDict → String → Option PyVal
  | [], _ => none
  | (k, v) :: rest, key => if k = key then some v else lookupKey rest key

/-- Python `key in d` for a dictionary. -/
def hasKey (d : PyDict) (key : String) : Bool :=
  (lookupKey d key).isSome

/-- Python `d[k] = v`: replace the value of an existing key in place
(keeping its position), otherwise append the new binding. -/
def setKey : PyDict → String → PyVal → PyDict
  | [], key, v => [(key, v)]
  | (k, w) :: rest, key, v =>
    if k = key then (k, v) :: rest else (k, w) :: setKey rest key v

/-- Python `d.pop(k)`: remove the first binding of the key. -/
def removeKey : PyDict → String → PyDict
  | [], _ => []
  | (k, w) :: rest, key =>
    if k = key then rest else (k, w) :: removeKey rest key

/-- Python `sub in s` substring test on strings. -/
def strContainsSub (s sub : String) : Bool :=
  go sub.toList s.toList
where
  /-- The pattern occurs in the text at some position. -/
  go (pat : List Char) : List Char → Bool
  | [] => pat.isEmpty
  | c :: rest => pat.isPrefixOf (c :: rest) || go pat rest

/-- Python `key in x` where `x` is an arbitrary value: key test for
dictionaries, substring test for strings, `TypeError` otherwise. -/
def pyContains (x : PyVal) (key : String) : Except PyError Bool :=
  match x with
  | .dict d => .ok (hasKey d key)
  | .str s => .ok (strContainsSub s key)
  | _ => .error (.typeError "argument of type is not iterable")

/-- Python `x[key]` where `x` is an arbitrary value: dictionary lookup
(`KeyError` when absent), `TypeError` for strings (string indices must be
integers) and other non-subscriptable values. -/
def pyIndex (x : PyVal) (key : String) : Except PyError PyVal :=
  match x with
  | .dict d =>
    match lookupKey d key with
    | some v => .ok v
    | none => .error (.keyError key)
  | .str _ => .error (.typeError "string indices must be integers")
  | _ => .error (.typeError "object is not subscriptable")

/-- Python truth test `x != 0` against a stored value: numbers compare by
value, booleans are the integers 0/1, every other value is unequal to 0. -/
def pyNeZero : PyVal → Bool
  | .num q => q ≠ 0
  | .bool b => b
  | _ => true

/-- Numeric coercion used by arithmetic: Python lets `bool` take part in
arithmetic as 0/1; strings and dictionaries raise `TypeError`. -/
def pyAsNum : PyVal → Option ℚ
  | .num q => some q
  | .bool b => some (if b then 1 else 0)
  | _ => none

/-- A websocket push message: the sentinel `False` on disconnect, or a
message dictionary. -/
inductive PushMessage where
  | disconnect : PushMessage
  | payload : PyDict → PushMessage

/-- Well-formedness of a value as a Python object: every nested dictionary
has pairwise-distinct keys (Python dictionaries cannot hold a key twice). -/
def PyVal.wf : PyVal → Bool
  | .str _ => true
  | .num _ => true
  | .bool _ => true
  | .dict d => wfList d
where
  /-- Keys of the list are distinct and every value is well formed. -/
  wfList : List (String × PyVal) → Bool
  | [] => true
  | (k, v) :: rest =>
    !(rest.map Prod.fst).contains k && v.wf && wfList rest

/-- Well-formedness of a push message. -/
def PushMessage.wf : PushMessage → Bool
  | .disconnect => true
  | .payload m => PyVal.wf (.dict m)

/-! ## Climate: constants and translation tables (`climate.py`, lines 51-87) -/

/-- Normalized HVAC mode of the host platform (`HVACMode`). -/
inductive HVACMode where
  | off : HVACMode
  | heat : HVACMode
  | cool : HVACMode
  | heat_cool : HVACMode
deriving DecidableEq, Repr

def CONTROL4_HVAC_MODE_OFF : String := "Off"
def CONTROL4_HVAC_MODE_HEAT : String := "Heat"
def CONTROL4_HVAC_MODE_COOL : String := "Cool"
def CONTROL4_HVAC_MODE_HEAT_COOL : String := "Auto"
def CONTROL4_HVAC_MODE_AUX_HEAT : String := "Emergency Heat"

/-- Host-platform fan-mode strings (constants of the excluded
`homeassistant.components.climate` collaborator). -/
def FAN_ON : String := "on"
def FAN_AUTO : String := "auto"
def FAN_DIFFUSE : String := "diffuse"

def CONTROL4_FAN_MODE_ON : String := "On"
def CONTROL4_FAN_MODE_AUTO : String := "Auto"
def CONTROL4_FAN_MODE_DIFFUSE : String := "Circulate"

def MIN_TEMP_RANGE : ℚ := 2

/-- Forward table `CONTROL4_HVAC_MODES`: normalized mode to vendor string. -/
def CONTROL4_HVAC_MODES : List (HVACMode × String) :=
  [(.off, CONTROL4_HVAC_MODE_OFF),
   (.heat, CONTROL4_HVAC_MODE_HEAT),
   (.cool, CONTROL4_HVAC_MODE_COOL),
   (.heat_cool, CONTROL4_HVAC_MODE_HEAT_COOL)]

/-- Reverse table `HVAC_MODES`: vendor string to normalized mode. -/
def HVAC_MODES : List (String × HVACMode) :=
  [(CONTROL4_HVAC_MODE_OFF, .off),
   (CONTROL4_HVAC_MODE_HEAT, .heat),
   (CONTROL4_HVAC_MODE_AUX_HEAT, .heat),
   (CONTROL4_HVAC_MODE_COOL, .cool),
   (CONTROL4_HVAC_MODE_HEAT_COOL, .heat_cool)]

/-- Forward table `CONTROL4_FAN_MODES`: host fan mode to vendor string. -/
def CONTROL4_FAN_MODES : List (String × String) :=
  [(FAN_ON, CONTROL4_FAN_MODE_ON),
   (FAN_AUTO, CONTROL4_FAN_MODE_AUTO),
   (FAN_DIFFUSE, CONTROL4_FAN_MODE_DIFFUSE)]

/-- Reverse table `FAN_MODES`: vendor string to host fan mode. -/
def FAN_MODES : List (String × String) :=
  [(CONTROL4_FAN_MODE_ON, FAN_ON),
   (CONTROL4_FAN_MODE_AUTO, FAN_AUTO),
   (CONTROL4_FAN_MODE_DIFFUSE, FAN_DIFFUSE)]

/-- First match in a table keyed by an arbitrary type with decidable
equality (Python dictionary lookup on a constant table). -/
def tableLookup {α β : Type} [DecidableEq α] : List (α × β) → α → Option β
  | [], _ => none
  | (k, v) :: rest, key => if k = key then some v else tableLookup rest key

/-! ## Climate: entity state and update reducer (`climate.py`, lines 146-241) -/

/-- Mutable state of a `Control4Climate` entity: the attribute store
`_extra_state_attributes` and the availability flag `_attr_available`. -/
structure ClimateState where
  extra : PyDict
  available : Bool

/-- The fixed recognized climate fields of `_update_callback`
(`climate.py` lines 194-238), as pairs of payload key and store key, in
source order. -/
def climateFields : List (String × String) :=
  [("hvac_state", "HVAC_STATE"),
   ("humidity", "HUMIDITY"),
   ("setpoint_heat", "HEAT_SETPOINT"),
   ("setpoint_heat_f", "HEAT_SETPOINT_F"),
   ("setpoint_heat_c", "HEAT_SETPOINT_C"),
   ("setpoint_cool", "COOL_SETPOINT"),
   ("setpoint_cool_f", "COOL_SETPOINT_F"),
   ("setpoint_cool_c", "COOL_SETPOINT_C"),
   ("current_temperature", "CURRENT_TEMPERATURE"),
   ("temperature", "TEMPERATURE"),
   ("current_temperature_f", "CURRENT_TEMPERATURE_F"),
   ("current_temperature_c", "CURRENT_TEMPERATURE_C"),
   ("hvac_mode", "HVAC_MODE"),
   ("fan_mode", "FAN_MODE"),
   ("fan_state", "FAN_STATE")]

/-- One `if src in data: store[dst] = data[src]` step of the climate
reducer; returns the store after the step and the exception, if any. -/
def climateFieldStep (extra : PyDict) (data : PyVal) (src dst : String) :
    PyDict × Option PyError :=
  match pyContains data src with
  | .error e => (extra, some e)
  | .ok false => (extra, none)
  | .ok true =>
    match pyIndex data src with
    | .error e => (extra, some e)
    | .ok v => (setKey extra dst v, none)

/-- The chain of recognized-field copies of the climate reducer, stopping
at the first exception (`climate.py` lines 194-238). -/
def climateApplyFields (extra : PyDict) (data : PyVal) :
    List (String × String) → PyDict × Option PyError
  | [] => (extra, none)
  | (src, dst) :: rest =>
    match climateFieldStep extra data src dst with
    | (e, some err) => (e, some err)
    | (e, none) => climateApplyFields e data rest

/-- Modelled from the spec: `Control4Entity._data_to_extra_state_attributes`
is defined in `custom_components/control4/__init__.py`, which is not among
the provided sources.  Spec section 4.1 specifies the climate reducer's
writes exhaustively as the fixed recognized-field copies, so this helper
performs no further store mutation. -/
def data_to_extra_state_attributes (extra : PyDict) (_data : PyVal) : PyDict :=
  extra

/-- Python `x == "OnDataToUI"`: true exactly for that string. -/
def isOnDataToUI : PyVal → Bool
  | .str s => s = "OnDataToUI"
  | _ => false

/-- `Control4Climate._update_callback` (`climate.py` lines 183-241):
disconnect marks the entity unavailable; an `OnDataToUI` payload marks it
available and merges the recognized fields; any other envelope name is
ignored; a payload with no `evtName` key raises `KeyError`.  Returns the
state after the call together with the exception, if any.  The trailing
`schedule_update_ha_state` notification is a host-platform side effect
outside the store and is not modelled. -/
def climate_update_callback (st : ClimateState) (msg : PushMessage) :
    ClimateState × Option PyError :=
  match msg with
  | .disconnect => ({ st with available := false }, none)
  | .payload m =>
    match lookupKey m "evtName" with
    | none => (st, some (.keyError "evtName"))
    | some evt =>
      if isOnDataToUI evt then
        let st := { st with available := true }
        match lookupKey m "data" with
        | none => (st, some (.keyError "data"))
        | some data =>
          match climateApplyFields st.extra data climateFields with
          | (e, some err) => ({ st with extra := e }, some err)
          | (e, none) =>
            ({ st with extra := data_to_extra_state_attributes e data }, none)
      else (st, none)

/-! ## Climate: read-only properties (`climate.py`, lines 243-356) -/

/-- `Control4Climate.hvac_mode` (`climate.py` lines 280-287): `OFF` when
the raw value is the empty string or not a key of `HVAC_MODES`, else the
table entry; `KeyError` when `HVAC_MODE` was never stored. -/
def hvac_mode (st : ClimateState) : Except PyError HVACMode :=
  match lookupKey st.extra "HVAC_MODE" with
  | none => .error (.keyError "HVAC_MODE")
  | some raw =>
    match raw with
    | .str s =>
      if s = "" then .ok .off
      else
        match tableLookup HVAC_MODES s with
        | none => .ok .off
        | some md => .ok md
    | _ => .ok .off

/-- `Control4Climate.target_temperature` (`climate.py` lines 310-319). -/
def target_temperature (st : ClimateState) : Except PyError (Option PyVal) :=
  match hvac_mode st with
  | .error e => .error e
  | .ok m1 =>
    if m1 = .heat ∧ hasKey st.extra "HEAT_SETPOINT_F" then
      .ok (lookupKey st.extra "HEAT_SETPOINT_F")
    else
      match hvac_mode st with
      | .error e => .error e
      | .ok m2 =>
        if m2 = .cool ∧ hasKey st.extra "COOL_SETPOINT_F" then
          .ok (lookupKey st.extra "COOL_SETPOINT_F")
        else .ok none

/-- `Control4Climate.target_temperature_high` (`climate.py` lines 321-326):
`None` outside `HEAT_COOL`, otherwise an unguarded store read. -/
def target_temperature_high (st : ClimateState) : Except PyError (Option PyVal) :=
  match hvac_mode st with
  | .error e => .error e
  | .ok m =>
    if m ≠ .heat_cool then .ok none
    else
      match lookupKey st.extra "COOL_SETPOINT_F" with
      | none => .error (.keyError "COOL_SETPOINT_F")
      | some v => .ok (some v)

/-- `Control4Climate.target_temperature_low` (`climate.py` lines 328-333). -/
def target_temperature_low (st : ClimateState) : Except PyError (Option PyVal) :=
  match hvac_mode st with
  | .error e => .error e
  | .ok m =>
    if m ≠ .heat_cool then .ok none
    else
      match lookupKey st.extra "HEAT_SETPOINT_F" with
      | none => .error (.keyError "HEAT_SETPOINT_F")
      | some v => .ok (some v)

/-- `Control4Climate.current_temperature` (`climate.py` lines 253-256): an
unguarded read of the store key `TEMPERATURE_F`. -/
def current_temperature (st : ClimateState) : Except PyError PyVal :=
  match lookupKey st.extra "TEMPERATURE_F" with
  | none => .error (.keyError "TEMPERATURE_F")
  | some v => .ok v

/-! ## Fan: entity state and update reducer (`fan.py`, lines 87-117) -/

/-- Mutable state of a `Control4Fan` entity. -/
structure FanState where
  extra : PyDict
  available : Bool

/-- One nested-envelope step of the fan reducer (`fan.py` lines 104-114):
`if key in data: sub = data[key]; if subkey in sub:
 store[dst] = sub.pop(subkey)`.  The `pop` mutates the nested dictionary
inside the message, so the step returns the updated store, the updated
`data` value, and the exception, if any.  A non-dictionary `sub` whose
substring test succeeds raises `AttributeError` at the `pop` call. -/
def fanEnvelopeStep (extra : PyDict) (data : PyVal) (key subkey dst : String) :
    PyDict × PyVal × Option PyError :=
  match pyContains data key with
  | .error e => (extra, data, some e)
  | .ok false => (extra, data, none)
  | .ok true =>
    match pyIndex data key with
    | .error e => (extra, data, some e)
    | .ok sub =>
      match pyContains sub subkey with
      | .error e => (extra, data, some e)
      | .ok false => (extra, data, none)
      | .ok true =>
        match sub with
        | .dict sd =>
          match lookupKey sd subkey with
          | none => (extra, data, some (.keyError subkey))
          | some v =>
            let sd2 := removeKey sd subkey
            (setKey extra dst v, setKey (match data with
              | .dict dd => dd
              | _ => []) key (.dict sd2) |> .dict, none)
        | _ => (extra, data, some (.attributeError "pop"))

/-- `Control4Fan._update_callback` (`fan.py` lines 96-116): disconnect
marks the entity unavailable; an `OnDataToUI` payload marks it available
and extracts `fan_state.current_speed` and `fan_setup.preset_speed`,
popping each recognized subfield out of the message; other envelope names
are ignored; a payload with no `evtName` key raises `KeyError`.  Returns
the state after the call, the (possibly mutated) message, and the
exception, if any. -/
def fan_update_callback (st : FanState) (msg : PushMessage) :
    FanState × PushMessage × Option PyError :=
  match msg with
  | .disconnect => ({ st with available := false }, .disconnect, none)
  | .payload m =>
    match lookupKey m "evtName" with
    | none => (st, .payload m, some (.keyError "evtName"))
    | some evt =>
      if isOnDataToUI evt then
        let st := { st with available := true }
        match lookupKey m "data" with
        | none => (st, .payload m, some (.keyError "data"))
        | some data =>
          match fanEnvelopeStep st.extra data "fan_state" "current_speed" "CURRENT_SPEED" with
          | (e1, d1, some err) =>
            ({ st with extra := e1 }, .payload (setKey m "data" d1), some err)
          | (e1, d1, none) =>
            match fanEnvelopeStep e1 d1 "fan_setup" "preset_speed" "PRESET_SPEED" with
            | (e2, d2, err) =>
              ({ st with extra := e2 }, .payload (setKey m "data" d2), err)
      else (st, .payload m, none)

/-! ## Fan: properties and commands (`fan.py`, lines 119-179) -/

/-- A command sent to the hub through the `C4Fan` channel. -/
inductive FanCommand where
  | setSpeed : PyVal → FanCommand
  | setPreset : PyVal → FanCommand

/-- Outcome model of the hub command channel: `true` means the call
succeeds, `false` means it raises a hub-side exception. -/
abbrev FanHub := FanCommand → Bool

/-- `Control4Fan.is_on` property (`fan.py` lines 131-134): the stored
`CURRENT_SPEED` compared against 0; reading the key can raise `KeyError`. -/
def is_on (st : FanState) : Except PyError Bool :=
  match lookupKey st.extra "CURRENT_SPEED" with
  | none => .error (.keyError "CURRENT_SPEED")
  | some v => .ok (pyNeZero v)

/-- `Control4Fan.async_turn_on` (`fan.py` lines 151-158): dispatch the
stored nonzero preset speed, else speed 1. -/
def async_turn_on (st : FanState) (hub : FanHub) :
    List FanCommand × Option PyError :=
  match lookupKey st.extra "PRESET_SPEED" with
  | none => ([], some (.keyError "PRESET_SPEED"))
  | some v =>
    let cmd := if pyNeZero v then FanCommand.setSpeed v else FanCommand.setSpeed (.num 1)
    if hub cmd then ([cmd], none) else ([cmd], some (.c4Exception "setSpeed"))

/-- `Control4Fan.async_turn_off` (`fan.py` lines 169-172). -/
def async_turn_off (_st : FanState) (hub : FanHub) :
    List FanCommand × Option PyError :=
  let cmd := FanCommand.setSpeed (.num 0)
  if hub cmd then ([cmd], none) else ([cmd], some (.c4Exception "setSpeed"))

/-- `Control4Fan.async_toggle` (`fan.py` lines 174-179): the source reads
`self.is_on()`.  `is_on` is a property, so the expression first evaluates
the property (a `bool`) and then calls that `bool`, raising
`TypeError: bool object is not callable` before either branch can run;
no hub command is ever dispatched. -/
def async_toggle (st : FanState) (_hub : FanHub) :
    List FanCommand × Option PyError :=
  match is_on st with
  | .error e => ([], some e)
  | .ok _ => ([], some (.typeError "bool object is not callable"))

/-! ## Climate: command dispatchers (`climate.py`, lines 358-426) -/

/-- A command sent to the hub through the `C4Climate` channel. -/
inductive ClimateCommand where
  | setHvacMode : String → ClimateCommand
  | setFanMode : String → ClimateCommand
  | setHeatSetpoint : ℚ → ClimateCommand
  | setCoolSetpoint : ℚ → ClimateCommand
deriving DecidableEq, Repr

/-- Outcome model of the hub command channel for climate commands. -/
abbrev ClimateHub := ClimateCommand → Bool

/-- Whether the module defines the name `C4Exception`: the line
`from pyControl4.error_handling import C4Exception` in `climate.py` (line 8)
is commented out, and no other binding of that name exists, so the name is
unresolvable. -/
def c4ExceptionNameDefined : Bool := false

/-- `Control4Climate.async_set_fan_mode` (`climate.py` lines 385-394): a
translatable mode is dispatched; for an untranslatable mode the code tries
to log the bare name `hvac_mode`, which is unbound in this method, so the
call raises `NameError` before anything is logged. -/
def async_set_fan_mode (_st : ClimateState) (hub : ClimateHub) (fan_mode : String) :
    List ClimateCommand × Option PyError :=
  match tableLookup CONTROL4_FAN_MODES fan_mode with
  | some vendor =>
    let cmd := ClimateCommand.setFanMode vendor
    if hub cmd then ([cmd], none) else ([cmd], some (.c4Exception "setFanMode"))
  | none => ([], some (.nameError "hvac_mode"))

/-- Keyword arguments of `async_set_temperature`: the values bound to
`target_temp_low`, `target_temp_high` and `temperature`, each absent or a
number (the host platform validates temperature parameters as numbers). -/
structure TempKwargs where
  low : Option ℚ
  high : Option ℚ
  temp : Option ℚ

/-- Python truthiness of an optional numeric keyword: `None` and 0 are
falsy. -/
def truthy : Option ℚ → Bool
  | none => false
  | some q => q ≠ 0

/-- The `try` body of `async_set_temperature` (`climate.py` lines 408-422).
Returns the list of hub commands attempted (in order, including a failing
one) and the first exception raised, if any. -/
def set_temperature_body (st : ClimateState) (hub : ClimateHub) (kw : TempKwargs) :
    List ClimateCommand × Option PyError :=
  match hvac_mode st with
  | .error e => ([], some e)
  | .ok m =>
    if m = .heat_cool then
      if truthy kw.low && truthy kw.high then
        let low0 := kw.low.getD 0
        let high0 := kw.high.getD 0
        if high0 - low0 < MIN_TEMP_RANGE then
          match target_temperature_high st with
          | .error e => ([], some e)
          | .ok none => ([], some (.typeError "unsupported operand"))
          | .ok (some prevVal) =>
            match pyAsNum prevVal with
            | none => ([], some (.typeError "unsupported operand"))
            | some prev =>
              let pair :=
                if |high0 - prev| < 1 / 100 then (low0, low0 + MIN_TEMP_RANGE)
                else (high0 - MIN_TEMP_RANGE, high0)
              let c1 := ClimateCommand.setHeatSetpoint pair.1
              let c2 := ClimateCommand.setCoolSetpoint pair.2
              if hub c1 then
                if hub c2 then ([c1, c2], none)
                else ([c1, c2], some (.c4Exception "setCoolSetpoint"))
              else ([c1], some (.c4Exception "setHeatSetpoint"))
        else
          let c1 := ClimateCommand.setHeatSetpoint low0
          let c2 := ClimateCommand.setCoolSetpoint high0
          if hub c1 then
            if hub c2 then ([c1, c2], none)
            else ([c1, c2], some (.c4Exception "setCoolSetpoint"))
          else ([c1], some (.c4Exception "setHeatSetpoint"))
      else ([], none)
    else if m = .cool ∧ truthy kw.temp then
      let c := ClimateCommand.setCoolSetpoint (kw.temp.getD 0)
      if hub c then ([c], none) else ([c], some (.c4Exception "setCoolSetpoint"))
    else if m = .heat ∧ truthy kw.temp then
      let c := ClimateCommand.setHeatSetpoint (kw.temp.getD 0)
      if hub c then ([c], none) else ([c], some (.c4Exception "setHeatSetpoint"))
    else ([], none)

/-- `Control4Climate.async_set_temperature` (`climate.py` lines 401-426):
the body runs inside `try ... except C4Exception`.  When the body raises,
the interpreter evaluates the handler expression `C4Exception`; that name
is unresolvable (its import on line 8 is commented out), so a `NameError`
escapes instead of the intended `UpdateFailed` wrapper. -/
def async_set_temperature (st : ClimateState) (hub : ClimateHub) (kw : TempKwargs) :
    List ClimateCommand × Option PyError :=
  match set_temperature_body st hub kw with
  | (cmds, none) => (cmds, none)
  | (cmds, some e) =>
    if c4ExceptionNameDefined then
      match e with
      | .c4Exception s => (cmds, some (.updateFailed s))
      | _ => (cmds, some e)
    else (cmds, some (.nameError "C4Exception"))

/-! ## Supporting lemmas on the dictionary model -/

theorem lookupKey_setKey_self (d : PyDict) (k : String) (v : PyVal) :
    lookupKey (setKey d k v) k = some v := by
  induction d with
  | nil => simp [setKey, lookupKey]
  | cons p rest ih =>
    obtain ⟨k1, v1⟩ := p
    by_cases h : k1 = k <;> simp [setKey, lookupKey, h, ih]

theorem lookupKey_setKey_ne (d : PyDict) (k key : String) (v : PyVal)
    (h : k ≠ key) : lookupKey (setKey d k v) key = lookupKey d key := by
  induction d with
  | nil => simp [setKey, lookupKey, h]
  | cons p rest ih =>
    obtain ⟨k1, v1⟩ := p
    by_cases h1 : k1 = k
    · subst h1; simp [setKey, lookupKey, h]
    · simp [setKey, lookupKey, h1, ih]

theorem setKey_eq_self (d : PyDict) (k : String) (v : PyVal)
    (h : lookupKey d k = some v) : setKey d k v = d := by
  induction d with
  | nil => simp [lookupKey] at h
  | cons p rest ih =>
    obtain ⟨k1, v1⟩ := p
    by_cases h1 : k1 = k
    · subst h1
      simp [lookupKey] at h
      simp [setKey, h]
    · simp [lookupKey, h1] at h
      simp [setKey, h1, ih h]

theorem hasKey_setKey (d : PyDict) (k key : String) (v : PyVal) :
    hasKey (setKey d k v) key = (key = k || hasKey d key) := by
  by_cases h : k = key
  · subst h; simp [hasKey, lookupKey_setKey_self]
  · have h2 : ¬ key = k := fun hh => h hh.symm
    simp [hasKey, lookupKey_setKey_ne d k key v h, h2]

theorem lookupKey_eq_none_of_not_mem (d : PyDict) (k : String)
    (h : k ∉ d.map Prod.fst) : lookupKey d k = none := by
  induction d with
  | nil => simp [lookupKey]
  | cons p rest ih =>
    obtain ⟨k1, v1⟩ := p
    simp only [List.map_cons, List.mem_cons] at h
    push_neg at h
    have hk1 : ¬ k1 = k := fun hh => h.1 hh.symm
    simp [lookupKey, hk1]
    exact ih h.2

theorem lookupKey_removeKey_self (d : PyDict) (k : String)
    (h : (d.map Prod.fst).Nodup) : lookupKey (removeKey d k) k = none := by
  induction d with
  | nil => simp [removeKey, lookupKey]
  | cons p rest ih =>
    obtain ⟨k1, v1⟩ := p
    simp only [List.map_cons, List.nodup_cons] at h
    by_cases h1 : k1 = k
    · subst h1
      simp only [removeKey, if_pos rfl]
      exact lookupKey_eq_none_of_not_mem rest k1 h.1
    · simp [removeKey, lookupKey, h1]
      exact ih h.2

/-! ## Supporting lemmas on the climate reducer -/

/-- Pure form of the recognized-field copies when the payload `data` is a
dictionary: each copy either overwrites the destination key or is skipped,
and no exception can occur. -/
def applyFieldsD (e : PyDict) (d : PyDict) : List (String × String) → PyDict
  | [] => e
  | (src, dst) :: rest =>
    applyFieldsD (match lookupKey d src with
      | some v => setKey e dst v
      | none => e) d rest

theorem climateApplyFields_dict (d : PyDict) (l : List (String × String)) :
    ∀ e, climateApplyFields e (.dict d) l = (applyFieldsD e d l, none) := by
  induction l with
  | nil => intro e; rfl
  | cons p rest ih =>
    intro e
    obtain ⟨src, dst⟩ := p
    cases h : lookupKey d src with
    | none =>
      simp [climateApplyFields, climateFieldStep, pyContains, hasKey, h,
        applyFieldsD, ih]
    | some v =>
      simp [climateApplyFields, climateFieldStep, pyContains, hasKey, pyIndex, h,
        applyFieldsD, ih]

theorem lookupKey_applyFieldsD_not_mem (d : PyDict) (t : String)
    (l : List (String × String)) (ht : t ∉ l.map Prod.snd) :
    ∀ e, lookupKey (applyFieldsD e d l) t = lookupKey e t := by
  induction l with
  | nil => intro e; rfl
  | cons p rest ih =>
    intro e
    obtain ⟨src, dst⟩ := p
    simp only [List.map_cons, List.mem_cons] at ht
    push_neg at ht
    cases h : lookupKey d src with
    | none => simp [applyFieldsD, h, ih ht.2]
    | some v =>
      simp only [applyFieldsD, h]
      rw [ih ht.2, lookupKey_setKey_ne _ _ _ _ (fun hh => ht.1 hh.symm)]

theorem applyFieldsD_idem (d : PyDict) (l : List (String × String))
    (hnd : (l.map Prod.snd).Nodup) :
    ∀ e, applyFieldsD (applyFieldsD e d l) d l = applyFieldsD e d l := by
  induction l with
  | nil => intro e; rfl
  | cons p rest ih =>
    intro e
    obtain ⟨src, dst⟩ := p
    simp only [List.map_cons, List.nodup_cons] at hnd
    cases h : lookupKey d src with
    | none => simpa [applyFieldsD, h] using ih hnd.2 _
    | some v =>
      simp only [applyFieldsD, h]
      have hlook : lookupKey (applyFieldsD (setKey e dst v) d rest) dst = some v := by
        rw [lookupKey_applyFieldsD_not_mem d dst rest hnd.1,
          lookupKey_setKey_self]
      rw [setKey_eq_self _ _ _ hlook]
      exact ih hnd.2 _

theorem hasKey_applyFieldsD (d : PyDict) (t : String)
    (l : List (String × String)) (ht : t ∉ l.map Prod.snd) :
    ∀ e, hasKey (applyFieldsD e d l) t = hasKey e t := by
  intro e
  simp [hasKey, lookupKey_applyFieldsD_not_mem d t l ht]

/-- Discriminator for dictionary values. -/
def PyVal.isDict : PyVal → Bool
  | .dict _ => true
  | _ => false

theorem climateApplyFields_not_dict (data : PyVal) (hd : data.isDict = false)
    (l : List (String × String)) :
    ∀ e, (climateApplyFields e data l).1 = e := by
  induction l with
  | nil => intro e; rfl
  | cons p rest ih =>
    intro e
    obtain ⟨src, dst⟩ := p
    cases data with
    | dict d => simp [PyVal.isDict] at hd
    | str s =>
      by_cases h : strContainsSub s src
      · simp [climateApplyFields, climateFieldStep, pyContains, pyIndex, h]
      · simp [climateApplyFields, climateFieldStep, pyContains, h, ih]
    | num q => simp [climateApplyFields, climateFieldStep, pyContains]
    | bool b => simp [climateApplyFields, climateFieldStep, pyContains]

/-- The error component of the recognized-field copies does not depend on
the store when the payload is not a dictionary. -/
theorem climateApplyFields_not_dict_err (data : PyVal) (hd : data.isDict = false)
    (l : List (String × String)) :
    ∀ e e2, (climateApplyFields e data l).2 = (climateApplyFields e2 data l).2 := by
  induction l with
  | nil => intro e e2; rfl
  | cons p rest ih =>
    intro e e2
    obtain ⟨src, dst⟩ := p
    cases data with
    | dict d => simp [PyVal.isDict] at hd
    | str s =>
      by_cases h : strContainsSub s src
      · simp [climateApplyFields, climateFieldStep, pyContains, pyIndex, h]
      · simp only [climateApplyFields, climateFieldStep, pyContains, h,
          Bool.false_eq_true, if_false]
        exact ih e e2
    | num q => simp [climateApplyFields, climateFieldStep, pyContains]
    | bool b => simp [climateApplyFields, climateFieldStep, pyContains]

/-! ## Supporting lemmas on well-formed dictionaries -/

theorem wfList_nodup (d : PyDict) (h : PyVal.wf.wfList d = true) :
    (d.map Prod.fst).Nodup := by
  induction d with
  | nil => simp
  | cons p rest ih =>
    obtain ⟨k, v⟩ := p
    simp only [PyVal.wf.wfList, Bool.and_eq_true, Bool.not_eq_true'] at h
    simp only [List.map_cons, List.nodup_cons]
    refine ⟨?_, ih h.2⟩
    simpa using h.1.1

theorem wfList_lookup (d : PyDict) (k : String) (v : PyVal)
    (h : PyVal.wf.wfList d = true) (h2 : lookupKey d k = some v) :
    PyVal.wf v = true := by
  induction d with
  | nil => simp [lookupKey] at h2
  | cons p rest ih =>
    obtain ⟨k1, v1⟩ := p
    simp only [PyVal.wf.wfList, Bool.and_eq_true] at h
    by_cases h1 : k1 = k
    · simp [lookupKey, h1] at h2
      exact h2 ▸ h.1.2
    · simp [lookupKey, h1] at h2
      exact ih h.2 h2

theorem wf_dict_nodup (d : PyDict) (h : PyVal.wf (.dict d) = true) :
    (d.map Prod.fst).Nodup :=
  wfList_nodup d (by simpa [PyVal.wf] using h)

theorem wf_dict_lookup (d : PyDict) (k : String) (v : PyVal)
    (h : PyVal.wf (.dict d) = true) (h2 : lookupKey d k = some v) :
    PyVal.wf v = true :=
  wfList_lookup d k v (by simpa [PyVal.wf] using h) h2

/-! ## Supporting lemmas on the fan envelope step -/

theorem fanEnv_no_key (E : PyDict) (D : PyDict) (k s t : String)
    (h : lookupKey D k = none) :
    fanEnvelopeStep E (.dict D) k s t = (E, .dict D, none) := by
  simp [fanEnvelopeStep, pyContains, hasKey, h]

theorem fanEnv_sub_dict_no_subkey (E : PyDict) (D sd : PyDict) (k s t : String)
    (h : lookupKey D k = some (.dict sd)) (h2 : lookupKey sd s = none) :
    fanEnvelopeStep E (.dict D) k s t = (E, .dict D, none) := by
  simp [fanEnvelopeStep, pyContains, hasKey, pyIndex, h, h2]

theorem fanEnv_pop (E : PyDict) (D sd : PyDict) (k s t : String) (v : PyVal)
    (h : lookupKey D k = some (.dict sd)) (h2 : lookupKey sd s = some v) :
    fanEnvelopeStep E (.dict D) k s t =
      (setKey E t v, .dict (setKey D k (.dict (removeKey sd s))), none) := by
  simp [fanEnvelopeStep, pyContains, hasKey, pyIndex, h, h2]

theorem fanEnv_sub_str_no (E : PyDict) (D : PyDict) (sv : String) (k s t : String)
    (h : lookupKey D k = some (.str sv)) (h2 : strContainsSub sv s = false) :
    fanEnvelopeStep E (.dict D) k s t = (E, .dict D, none) := by
  simp [fanEnvelopeStep, pyContains, hasKey, pyIndex, h, h2]

theorem fanEnv_sub_str_yes (E : PyDict) (D : PyDict) (sv : String) (k s t : String)
    (h : lookupKey D k = some (.str sv)) (h2 : strContainsSub sv s = true) :
    fanEnvelopeStep E (.dict D) k s t = (E, .dict D, some (.attributeError "pop")) := by
  simp [fanEnvelopeStep, pyContains, hasKey, pyIndex, h, h2]

theorem fanEnv_sub_num (E : PyDict) (D : PyDict) (q : ℚ) (k s t : String)
    (h : lookupKey D k = some (.num q)) :
    fanEnvelopeStep E (.dict D) k s t =
      (E, .dict D, some (.typeError "argument of type is not iterable")) := by
  simp [fanEnvelopeStep, pyContains, hasKey, pyIndex, h]

theorem fanEnv_sub_bool (E : PyDict) (D : PyDict) (b : Bool) (k s t : String)
    (h : lookupKey D k = some (.bool b)) :
    fanEnvelopeStep E (.dict D) k s t =
      (E, .dict D, some (.typeError "argument of type is not iterable")) := by
  simp [fanEnvelopeStep, pyContains, hasKey, pyIndex, h]

theorem fanEnv_data_str (E : PyDict) (sv : String) (k s t : String) :
    fanEnvelopeStep E (.str sv) k s t =
      if strContainsSub sv k then
        (E, .str sv, some (.typeError "string indices must be integers"))
      else (E, .str sv, none) := by
  by_cases h : strContainsSub sv k <;>
    simp [fanEnvelopeStep, pyContains, pyIndex, h]

theorem fanEnv_data_num (E : PyDict) (q : ℚ) (k s t : String) :
    fanEnvelopeStep E (.num q) k s t =
      (E, .num q, some (.typeError "argument of type is not iterable")) := by
  simp [fanEnvelopeStep, pyContains]

theorem fanEnv_data_bool (E : PyDict) (b : Bool) (k s t : String) :
    fanEnvelopeStep E (.bool b) k s t =
      (E, .bool b, some (.typeError "argument of type is not iterable")) := by
  simp [fanEnvelopeStep, pyContains]

/-! ## Seeding and message sequences -/

/-- Modelled from the spec: the `Control4Entity` constructor, defined in
`custom_components/control4/__init__.py` (not among the provided sources),
seeds the attribute store from the snapshot fetch (spec sections 2 and 6).
The `Control4Climate` constructor (`climate.py` line 175) then stores the
process-local flag `aux_mode_active = False`. -/
def seedClimate (snapshot : PyDict) : ClimateState :=
  { extra := setKey snapshot "aux_mode_active" (.bool false), available := true }

/-- Serial application of a sequence of push messages through the climate
reducer; any exception a message raises leaves that message's partial state
in place and the next message is still processed. -/
def runClimateMsgs (st : ClimateState) : List PushMessage → ClimateState
  | [] => st
  | msg :: rest => runClimateMsgs (climate_update_callback st msg).1 rest

theorem climate_update_callback_fresh (st : ClimateState) (msg : PushMessage)
    (t : String) (h : hasKey st.extra t = false)
    (ht : t ∉ climateFields.map Prod.snd) :
    hasKey (climate_update_callback st msg).1.extra t = false := by
  cases msg with
  | disconnect => simpa [climate_update_callback] using h
  | payload m =>
    cases hev : lookupKey m "evtName" with
    | none => simpa [climate_update_callback, hev] using h
    | some evt =>
      by_cases ho : isOnDataToUI evt
      · cases hd : lookupKey m "data" with
        | none => simpa [climate_update_callback, hev, ho, hd] using h
        | some data =>
          cases data with
          | dict d =>
            have hc := climateApplyFields_dict d climateFields st.extra
            simp only [climate_update_callback, hev, ho, if_true, hd, hc,
              data_to_extra_state_attributes]
            rw [hasKey_applyFieldsD d t climateFields ht]
            exact h
          | str s =>
            rcases hres : climateApplyFields st.extra (.str s) climateFields with ⟨e, err⟩
            have h1 : e = st.extra := by
              have h2 := climateApplyFields_not_dict (.str s) rfl climateFields st.extra
              rw [hres] at h2
              exact h2
            subst h1
            cases err <;>
              simpa [climate_update_callback, hev, ho, hd, hres,
                data_to_extra_state_attributes] using h
          | num q =>
            rcases hres : climateApplyFields st.extra (.num q) climateFields with ⟨e, err⟩
            have h1 : e = st.extra := by
              have h2 := climateApplyFields_not_dict (.num q) rfl climateFields st.extra
              rw [hres] at h2
              exact h2
            subst h1
            cases err <;>
              simpa [climate_update_callback, hev, ho, hd, hres,
                data_to_extra_state_attributes] using h
          | bool b =>
            rcases hres : climateApplyFields st.extra (.bool b) climateFields with ⟨e, err⟩
            have h1 : e = st.extra := by
              have h2 := climateApplyFields_not_dict (.bool b) rfl climateFields st.extra
              rw [hres] at h2
              exact h2
            subst h1
            cases err <;>
              simpa [climate_update_callback, hev, ho, hd, hres,
                data_to_extra_state_attributes] using h
      · simpa [climate_update_callback, hev, ho] using h

theorem runClimateMsgs_fresh (t : String) (ht : t ∉ climateFields.map Prod.snd)
    (msgs : List PushMessage) :
    ∀ st : ClimateState, hasKey st.extra t = false →
      hasKey (runClimateMsgs st msgs).extra t = false := by
  induction msgs with
  | nil => intro st h; exact h
  | cons msg rest ih =>
    intro st h
    exact ih _ (climate_update_callback_fresh st msg t h ht)

/-! ## Fan reducer composition and idempotence -/

/-- The two envelope steps of the fan reducer in sequence, stopping at the
first exception: the store/data transformation performed by the
`OnDataToUI` branch of `Control4Fan._update_callback`. -/
def fanProcess (e : PyDict) (data : PyVal) : PyDict × PyVal × Option PyError :=
  match fanEnvelopeStep e data "fan_state" "current_speed" "CURRENT_SPEED" with
  | (e1, d1, some err) => (e1, d1, some err)
  | (e1, d1, none) => fanEnvelopeStep e1 d1 "fan_setup" "preset_speed" "PRESET_SPEED"

theorem fan_update_callback_payload (st : FanState) (m : PyDict) (evt : PyVal)
    (hev : lookupKey m "evtName" = some evt) (ho : isOnDataToUI evt = true)
    (data : PyVal) (hd : lookupKey m "data" = some data) :
    fan_update_callback st (.payload m) =
      ({ extra := (fanProcess st.extra data).1, available := true },
       .payload (setKey m "data" (fanProcess st.extra data).2.1),
       (fanProcess st.extra data).2.2) := by
  rcases h1 : fanEnvelopeStep st.extra data "fan_state" "current_speed" "CURRENT_SPEED"
    with ⟨e1, d1, er1⟩
  cases er1 with
  | none =>
    rcases h2 : fanEnvelopeStep e1 d1 "fan_setup" "preset_speed" "PRESET_SPEED"
      with ⟨e2, d2, er2⟩
    simp [fan_update_callback, fanProcess, hev, ho, hd, h1, h2]
  | some err => simp [fan_update_callback, fanProcess, hev, ho, hd, h1]

/-- An envelope entry that does not trigger the pop: absent key, nested
dictionary without the subkey, or string without the substring. -/
def inertEntry (o : Option PyVal) (s : String) : Prop :=
  match o with
  | none => True
  | some (.dict sd) => lookupKey sd s = none
  | some (.str sv) => strContainsSub sv s = false
  | some _ => False

theorem fanEnv_inert (E : PyDict) (D : PyDict) (k s t : String)
    (h : inertEntry (lookupKey D k) s) :
    fanEnvelopeStep E (.dict D) k s t = (E, .dict D, none) := by
  cases hk : lookupKey D k with
  | none => exact fanEnv_no_key E D k s t hk
  | some sub =>
    rw [hk] at h
    cases sub with
    | dict sd => exact fanEnv_sub_dict_no_subkey E D sd k s t hk (by exact h)
    | str sv => exact fanEnv_sub_str_no E D sv k s t hk (by exact h)
    | num q => exact absurd h (by simp [inertEntry])
    | bool b => exact absurd h (by simp [inertEntry])

theorem fanEnv_error_frame (E : PyDict) (data : PyVal) (k s t : String)
    (e1 : PyDict) (d1 : PyVal) (err : PyError)
    (h : fanEnvelopeStep E data k s t = (e1, d1, some err)) :
    e1 = E ∧ d1 = data := by
  cases data with
  | num q =>
    rw [fanEnv_data_num] at h
    simp only [Prod.mk.injEq] at h
    exact ⟨h.1.symm, h.2.1.symm⟩
  | bool b =>
    rw [fanEnv_data_bool] at h
    simp only [Prod.mk.injEq] at h
    exact ⟨h.1.symm, h.2.1.symm⟩
  | str sv =>
    rw [fanEnv_data_str] at h
    by_cases hc : strContainsSub sv k
    · rw [if_pos hc] at h
      simp only [Prod.mk.injEq] at h
      exact ⟨h.1.symm, h.2.1.symm⟩
    · rw [if_neg hc] at h
      simp at h
  | dict D =>
    cases hk : lookupKey D k with
    | none => rw [fanEnv_no_key E D k s t hk] at h; simp at h
    | some sub =>
      cases sub with
      | dict sd =>
        cases hcs : lookupKey sd s with
        | none => rw [fanEnv_sub_dict_no_subkey E D sd k s t hk hcs] at h; simp at h
        | some v => rw [fanEnv_pop E D sd k s t v hk hcs] at h; simp at h
      | str sv =>
        by_cases hc : strContainsSub sv s
        · rw [fanEnv_sub_str_yes E D sv k s t hk hc] at h
          simp only [Prod.mk.injEq] at h
          exact ⟨h.1.symm, h.2.1.symm⟩
        · rw [fanEnv_sub_str_no E D sv k s t hk (by simpa using hc)] at h
          simp at h
      | num q =>
        rw [fanEnv_sub_num E D q k s t hk] at h
        simp only [Prod.mk.injEq] at h
        exact ⟨h.1.symm, h.2.1.symm⟩
      | bool b =>
        rw [fanEnv_sub_bool E D b k s t hk] at h
        simp only [Prod.mk.injEq] at h
        exact ⟨h.1.symm, h.2.1.symm⟩

theorem fanEnv_success (E D : PyDict) (k s t : String)
    (hnd : ∀ sd, lookupKey D k = some (.dict sd) → (sd.map Prod.fst).Nodup)
    (e1 : PyDict) (d1 : PyVal)
    (hstep : fanEnvelopeStep E (.dict D) k s t = (e1, d1, none)) :
    ∃ D1 : PyDict, d1 = .dict D1
      ∧ inertEntry (lookupKey D1 k) s
      ∧ (∀ k2, k2 ≠ k → lookupKey D1 k2 = lookupKey D k2) := by
  cases hk : lookupKey D k with
  | none =>
    rw [fanEnv_no_key E D k s t hk] at hstep
    simp only [Prod.mk.injEq] at hstep
    exact ⟨D, hstep.2.1.symm, by simp [inertEntry, hk], fun _ _ => rfl⟩
  | some sub =>
    cases sub with
    | dict sd =>
      cases hcs : lookupKey sd s with
      | none =>
        rw [fanEnv_sub_dict_no_subkey E D sd k s t hk hcs] at hstep
        simp only [Prod.mk.injEq] at hstep
        exact ⟨D, hstep.2.1.symm, by simp [inertEntry, hk, hcs], fun _ _ => rfl⟩
      | some v =>
        rw [fanEnv_pop E D sd k s t v hk hcs] at hstep
        simp only [Prod.mk.injEq] at hstep
        refine ⟨setKey D k (.dict (removeKey sd s)), hstep.2.1.symm, ?_, ?_⟩
        · have hsk : lookupKey (setKey D k (.dict (removeKey sd s))) k
              = some (.dict (removeKey sd s)) := lookupKey_setKey_self _ _ _
          rw [hsk]
          exact lookupKey_removeKey_self sd s (hnd sd hk)
        · intro k2 hk2
          exact lookupKey_setKey_ne D k k2 _ (fun hh => hk2 hh.symm)
    | str sv =>
      by_cases hc : strContainsSub sv s
      · rw [fanEnv_sub_str_yes E D sv k s t hk hc] at hstep
        simp at hstep
      · rw [fanEnv_sub_str_no E D sv k s t hk (by simpa using hc)] at hstep
        simp only [Prod.mk.injEq] at hstep
        exact ⟨D, hstep.2.1.symm, by simp [inertEntry, hk]; simpa using hc,
          fun _ _ => rfl⟩
    | num q => rw [fanEnv_sub_num E D q k s t hk] at hstep; simp at hstep
    | bool b => rw [fanEnv_sub_bool E D b k s t hk] at hstep; simp at hstep

theorem fanProcess_idem (e : PyDict) (data : PyVal) (hwf : PyVal.wf data = true) :
    fanProcess (fanProcess e data).1 (fanProcess e data).2.1 = fanProcess e data := by
  cases data with
  | num q => simp [fanProcess, fanEnv_data_num]
  | bool b => simp [fanProcess, fanEnv_data_bool]
  | str sv =>
    by_cases hc1 : strContainsSub sv "fan_state"
    · simp [fanProcess, fanEnv_data_str, hc1]
    · by_cases hc2 : strContainsSub sv "fan_setup"
      · simp [fanProcess, fanEnv_data_str, hc1, hc2]
      · simp [fanProcess, fanEnv_data_str, hc1, hc2]
  | dict D =>
    have hnd1 : ∀ sd, lookupKey D "fan_state" = some (.dict sd) →
        (sd.map Prod.fst).Nodup :=
      fun sd hsd => wf_dict_nodup sd (wf_dict_lookup D _ _ hwf hsd)
    have hnd2 : ∀ sd, lookupKey D "fan_setup" = some (.dict sd) →
        (sd.map Prod.fst).Nodup :=
      fun sd hsd => wf_dict_nodup sd (wf_dict_lookup D _ _ hwf hsd)
    rcases h1 : fanEnvelopeStep e (.dict D) "fan_state" "current_speed" "CURRENT_SPEED"
      with ⟨e1, d1, er1⟩
    cases er1 with
    | some err =>
      obtain ⟨he1, hd1⟩ := fanEnv_error_frame _ _ _ _ _ _ _ _ h1
      subst he1; subst hd1
      simp [fanProcess, h1]
    | none =>
      obtain ⟨D1, hD1, hin1, hfr1⟩ := fanEnv_success e D _ _ _ hnd1 e1 d1 h1
      subst hD1
      rcases h2 : fanEnvelopeStep e1 (.dict D1) "fan_setup" "preset_speed" "PRESET_SPEED"
        with ⟨e2, d2, er2⟩
      cases er2 with
      | some err =>
        obtain ⟨he2, hd2⟩ := fanEnv_error_frame _ _ _ _ _ _ _ _ h2
        rw [he2, hd2] at h2
        have hstep1 : fanEnvelopeStep e1 (.dict D1) "fan_state" "current_speed" "CURRENT_SPEED"
            = (e1, .dict D1, none) := fanEnv_inert _ _ _ _ _ hin1
        simp [fanProcess, h1, h2, hstep1]
      | none =>
        have hnd2b : ∀ sd, lookupKey D1 "fan_setup" = some (.dict sd) →
            (sd.map Prod.fst).Nodup := by
          intro sd hsd
          rw [hfr1 "fan_setup" (by decide)] at hsd
          exact hnd2 sd hsd
        obtain ⟨D2, hD2, hin2, hfr2⟩ := fanEnv_success e1 D1 _ _ _ hnd2b e2 d2 h2
        subst hD2
        have hin1b : inertEntry (lookupKey D2 "fan_state") "current_speed" := by
          rw [hfr2 "fan_state" (by decide)]
          exact hin1
        have hstep1 : fanEnvelopeStep e2 (.dict D2) "fan_state" "current_speed" "CURRENT_SPEED"
            = (e2, .dict D2, none) := fanEnv_inert _ _ _ _ _ hin1b
        have hstep2 : fanEnvelopeStep e2 (.dict D2) "fan_setup" "preset_speed" "PRESET_SPEED"
            = (e2, .dict D2, none) := fanEnv_inert _ _ _ _ _ hin2
        simp [fanProcess, h1, h2, hstep1, hstep2]

/-! ## Claim theorems -/

/-- C1 counterexample: a push message that is not the disconnect sentinel
and has no envelope-name field at all.  The claim says the reducers leave
the store unchanged and raise no failure; on this message both reducers
leave the store unchanged but raise `KeyError("evtName")`, because
`message["evtName"]` is an unguarded subscript. -/
theorem c1_counterexample :
    climate_update_callback ⟨[], true⟩ (.payload [])
      = (⟨[], true⟩, some (.keyError "evtName"))
    ∧ fan_update_callback ⟨[], true⟩ (.payload [])
      = (⟨[], true⟩, .payload [], some (.keyError "evtName")) :=
  ⟨rfl, rfl⟩

/-- C1 (amended): for every push message that is not the disconnect
sentinel and carries an envelope-name field different from "OnDataToUI",
both update reducers leave the entire entity state unchanged and raise no
failure; a payload with no envelope-name field also leaves the state
unchanged but raises `KeyError` instead of being silently ignored. -/
theorem c1_non_ondata_ignored (stc : ClimateState) (stf : FanState) (m : PyDict) :
    (∀ evt, lookupKey m "evtName" = some evt → isOnDataToUI evt = false →
      climate_update_callback stc (.payload m) = (stc, none)
      ∧ fan_update_callback stf (.payload m) = (stf, .payload m, none))
    ∧ (lookupKey m "evtName" = none →
      climate_update_callback stc (.payload m) = (stc, some (.keyError "evtName"))
      ∧ fan_update_callback stf (.payload m)
          = (stf, .payload m, some (.keyError "evtName"))) := by
  constructor
  · intro evt hevt hni
    constructor
    · simp [climate_update_callback, hevt, hni]
    · simp [fan_update_callback, hevt, hni]
  · intro hnone
    constructor
    · simp [climate_update_callback, hnone]
    · simp [fan_update_callback, hnone]

/-- C1 witness: the amended theorem applied at a concrete non-"OnDataToUI"
message and at a concrete envelope-less message. -/
theorem c1_witness :
    (climate_update_callback ⟨[("HUMIDITY", .num 40)], true⟩
        (.payload [("evtName", .str "OnSomethingElse")])
      = (⟨[("HUMIDITY", .num 40)], true⟩, none))
    ∧ (fan_update_callback ⟨[("CURRENT_SPEED", .num 2)], true⟩
        (.payload [("evtName", .str "OnSomethingElse")])
      = (⟨[("CURRENT_SPEED", .num 2)], true⟩,
         .payload [("evtName", .str "OnSomethingElse")], none)) := by
  have h := c1_non_ondata_ignored ⟨[("HUMIDITY", .num 40)], true⟩
    ⟨[("CURRENT_SPEED", .num 2)], true⟩ [("evtName", .str "OnSomethingElse")]
  have h2 := h.1 (.str "OnSomethingElse") (by rfl) (by decide)
  exact ⟨h2.1, h2.2⟩

/-- C4: in every attribute-store state whose `hvac_mode` read succeeds with
mode `m`, the `target_temperature` read returns a value only when `m` is
HEAT or COOL and the corresponding Fahrenheit setpoint key is present,
returns `None` for every other mode, and the `target_temperature_high` and
`target_temperature_low` reads return `None` for every mode other than
HEAT_COOL. -/
theorem c4_setpoint_mode_invariant (st : ClimateState) (m : HVACMode)
    (h : hvac_mode st = .ok m) :
    (∀ v, target_temperature st = .ok (some v) →
      (m = .heat ∧ lookupKey st.extra "HEAT_SETPOINT_F" = some v)
      ∨ (m = .cool ∧ lookupKey st.extra "COOL_SETPOINT_F" = some v))
    ∧ (m ≠ .heat → m ≠ .cool → target_temperature st = .ok none)
    ∧ (m ≠ .heat_cool → target_temperature_high st = .ok none
        ∧ target_temperature_low st = .ok none) := by
  refine ⟨?_, ?_, ?_⟩
  · intro v hv
    cases m with
    | heat =>
      by_cases hk : hasKey st.extra "HEAT_SETPOINT_F"
      · left
        refine ⟨rfl, ?_⟩
        simp [target_temperature, h, hk] at hv
        exact hv
      · simp [target_temperature, h, hk] at hv
    | cool =>
      by_cases hk : hasKey st.extra "COOL_SETPOINT_F"
      · right
        refine ⟨rfl, ?_⟩
        simp [target_temperature, h, hk] at hv
        exact hv
      · simp [target_temperature, h, hk] at hv
    | off => simp [target_temperature, h] at hv
    | heat_cool => simp [target_temperature, h] at hv
  · intro h1 h2
    simp [target_temperature, h, h1, h2]
  · intro h1
    constructor
    · simp [target_temperature_high, h, h1]
    · simp [target_temperature_low, h, h1]

/-- C4 witness: the invariant applied at a concrete store in COOL mode with
both setpoint keys present. -/
theorem c4_witness :
    (∀ v, target_temperature
        ⟨[("HVAC_MODE", .str "Cool"), ("COOL_SETPOINT_F", .num 74),
          ("HEAT_SETPOINT_F", .num 68)], true⟩ = .ok (some v) →
      (HVACMode.cool = .heat ∧ lookupKey [("HVAC_MODE", .str "Cool"),
          ("COOL_SETPOINT_F", .num 74), ("HEAT_SETPOINT_F", .num 68)]
          "HEAT_SETPOINT_F" = some v)
      ∨ (HVACMode.cool = .cool ∧ lookupKey [("HVAC_MODE", .str "Cool"),
          ("COOL_SETPOINT_F", .num 74), ("HEAT_SETPOINT_F", .num 68)]
          "COOL_SETPOINT_F" = some v))
    ∧ (HVACMode.cool ≠ .heat → HVACMode.cool ≠ .cool →
      target_temperature ⟨[("HVAC_MODE", .str "Cool"),
        ("COOL_SETPOINT_F", .num 74), ("HEAT_SETPOINT_F", .num 68)], true⟩ = .ok none)
    ∧ (HVACMode.cool ≠ .heat_cool →
      target_temperature_high ⟨[("HVAC_MODE", .str "Cool"),
        ("COOL_SETPOINT_F", .num 74), ("HEAT_SETPOINT_F", .num 68)], true⟩ = .ok none
      ∧ target_temperature_low ⟨[("HVAC_MODE", .str "Cool"),
        ("COOL_SETPOINT_F", .num 74), ("HEAT_SETPOINT_F", .num 68)], true⟩ = .ok none) :=
  c4_setpoint_mode_invariant
    ⟨[("HVAC_MODE", .str "Cool"), ("COOL_SETPOINT_F", .num 74),
      ("HEAT_SETPOINT_F", .num 68)], true⟩ .cool (by rfl)

/-- C5: for every raw HVAC-mode string stored under `HVAC_MODE`, the
`hvac_mode` read returns OFF when the string is empty or not a key of the
reverse table, and otherwise the table's normalized mode; the table sends
both "Heat" and "Emergency Heat" to HEAT. -/
theorem c5_hvac_mode_read (st : ClimateState) (s : String)
    (h : lookupKey st.extra "HVAC_MODE" = some (.str s)) :
    ((s = "" ∨ tableLookup HVAC_MODES s = none) → hvac_mode st = .ok .off)
    ∧ (∀ md, tableLookup HVAC_MODES s = some md → hvac_mode st = .ok md)
    ∧ tableLookup HVAC_MODES "Heat" = some .heat
    ∧ tableLookup HVAC_MODES "Emergency Heat" = some .heat := by
  refine ⟨?_, ?_, by rfl, by rfl⟩
  · rintro (he | hn)
    · simp [hvac_mode, h, he]
    · by_cases he : s = ""
      · simp [hvac_mode, h, he]
      · simp [hvac_mode, h, he, hn]
  · intro md hmd
    by_cases he : s = ""
    · rw [he] at hmd
      simp [tableLookup, HVAC_MODES, CONTROL4_HVAC_MODE_OFF,
        CONTROL4_HVAC_MODE_HEAT, CONTROL4_HVAC_MODE_AUX_HEAT,
        CONTROL4_HVAC_MODE_COOL, CONTROL4_HVAC_MODE_HEAT_COOL] at hmd
    · simp [hvac_mode, h, he, hmd]

/-- C5 witness: the read theorem applied at the concrete raw string
"Emergency Heat", which the table sends to HEAT. -/
theorem c5_witness :
    hvac_mode ⟨[("HVAC_MODE", .str "Emergency Heat")], true⟩ = .ok .heat := by
  have h := c5_hvac_mode_read ⟨[("HVAC_MODE", .str "Emergency Heat")], true⟩
    "Emergency Heat" (by rfl)
  exact h.2.1 .heat (by rfl)

/-- C6: applying the disconnect sentinel to any climate or fan state turns
the availability flag false, keeps every attribute binding of the store
exactly as it was, and raises no failure. -/
theorem c6_disconnect_frame (stc : ClimateState) (stf : FanState) :
    climate_update_callback stc .disconnect
      = ({ stc with available := false }, none)
    ∧ fan_update_callback stf .disconnect
      = ({ stf with available := false }, .disconnect, none) :=
  ⟨rfl, rfl⟩

/-- C2 counterexample: low=0, high=1 are both supplied, the gap 1 is below
the minimum separation, and the previous high setpoint is 5, so the claim
requires the dispatch of `setHeatSetpoint(-1)` then `setCoolSetpoint(1)`.
The code's guard `if low_temp and high_temp` uses Python truthiness, treats
the supplied 0 as absent, and dispatches nothing. -/
theorem c2_counterexample :
    async_set_temperature
        ⟨[("HVAC_MODE", .str "Auto"), ("COOL_SETPOINT_F", .num 5)], true⟩
        (fun _ => true) ⟨some 0, some 1, none⟩ = ([], none)
    ∧ ([] : List ClimateCommand)
        ≠ [ClimateCommand.setHeatSetpoint (-1), ClimateCommand.setCoolSetpoint 1] :=
  ⟨by rfl, by simp⟩

/-- C2 (amended): under HEAT_COOL with both bounds supplied and truthy
(nonzero — a supplied zero is skipped by the `if low_temp and high_temp`
guard), a gap below MIN_TEMP_RANGE, a numeric previous high setpoint, and
a hub that accepts every command: when the supplied high is within 0.01 of
the previous high the low bound is held and high becomes low +
MIN_TEMP_RANGE, otherwise high is held and low becomes high -
MIN_TEMP_RANGE; the dispatched commands are `setHeatSetpoint` then
`setCoolSetpoint` of the adjusted pair. -/
theorem c2_heat_cool_min_gap (st : ClimateState) (hub : ClimateHub) (l h prev : ℚ)
    (hm : hvac_mode st = .ok .heat_cool)
    (hprev : lookupKey st.extra "COOL_SETPOINT_F" = some (.num prev))
    (hl : l ≠ 0) (hh : h ≠ 0) (hgap : h - l < MIN_TEMP_RANGE)
    (hhub : ∀ c, hub c = true) :
    async_set_temperature st hub ⟨some l, some h, none⟩ =
      (if |h - prev| < 1 / 100
       then [ClimateCommand.setHeatSetpoint l,
             ClimateCommand.setCoolSetpoint (l + MIN_TEMP_RANGE)]
       else [ClimateCommand.setHeatSetpoint (h - MIN_TEMP_RANGE),
             ClimateCommand.setCoolSetpoint h],
       none) := by
  have hth : target_temperature_high st = .ok (some (.num prev)) := by
    simp [target_temperature_high, hm, hprev]
  simp [async_set_temperature, set_temperature_body, hm, truthy, hl, hh,
    hgap, hth, pyAsNum, hhub]
  split_ifs with habs <;> simp [habs]

/-- C2 witness: the concrete scenario of the claim, low=68, high=69,
previous high 69: the low bound is held and the dispatched commands are
`setHeatSetpoint(68)` then `setCoolSetpoint(70)`. -/
theorem c2_witness :
    async_set_temperature
      ⟨[("HVAC_MODE", .str "Auto"), ("COOL_SETPOINT_F", .num 69)], true⟩
      (fun _ => true) ⟨some 68, some 69, none⟩
      = ([ClimateCommand.setHeatSetpoint 68, ClimateCommand.setCoolSetpoint 70],
         none) := by
  have h := c2_heat_cool_min_gap
    ⟨[("HVAC_MODE", .str "Auto"), ("COOL_SETPOINT_F", .num 69)], true⟩
    (fun _ => true) 68 69 69 (by rfl) (by rfl) (by norm_num) (by norm_num)
    (by norm_num [MIN_TEMP_RANGE]) (fun _ => rfl)
  norm_num [MIN_TEMP_RANGE] at h
  exact h

/-- C3 (code bug): the `except C4Exception` handler of
`async_set_temperature` references a name whose importing line is commented
out, so a hub-side failure during a dispatch escapes as `NameError`, not as
the `UpdateFailed` wrapper the claim (and the handler body) intends.  Here
the mode is COOL, the requested temperature 72, and the hub rejects the
`setCoolSetpoint` call. -/
theorem c3_hub_failure_raises_name_error :
    async_set_temperature ⟨[("HVAC_MODE", .str "Cool")], true⟩ (fun _ => false)
      ⟨none, none, some 72⟩
      = ([ClimateCommand.setCoolSetpoint 72], some (.nameError "C4Exception")) := by
  rfl

/-- C7 (code bug): requesting the fan mode "medium", which is absent from
the forward table, dispatches nothing, but the logging call in the else
branch references the unbound name `hvac_mode`, so `NameError` propagates
to the caller instead of the silent logged ignore the claim describes. -/
theorem c7_untranslatable_fan_mode_raises :
    async_set_fan_mode ⟨[], true⟩ (fun _ => true) "medium"
      = ([], some (.nameError "hvac_mode")) := by
  rfl

/-- C8 (code bug): `async_toggle` evaluates `self.is_on()`; `is_on` is a
property whose value is a `bool`, and calling that `bool` raises
`TypeError` before either branch can dispatch, both when the fan is off
(speed 0) and when it is on (speed 3). -/
theorem c8_toggle_raises_type_error :
    (async_toggle ⟨[("CURRENT_SPEED", .num 0)], true⟩ (fun _ => true)
      = ([], some (.typeError "bool object is not callable")))
    ∧ (async_toggle ⟨[("CURRENT_SPEED", .num 3)], true⟩ (fun _ => true)
      = ([], some (.typeError "bool object is not callable"))) :=
  ⟨rfl, rfl⟩

/-- C9: for every well-formed push message (nested dictionaries carry no
duplicate keys, as Python dictionaries cannot) and every starting state,
applying the climate reducer twice yields the same entity state as
applying it once, and applying the fan reducer a second time to its own
output state and (mutated) output message yields the same entity state as
applying it once, even though the fan reducer pops the recognized
subfields out of the message on first application. -/
theorem c9_reducer_idempotent (stc : ClimateState) (stf : FanState)
    (msg : PushMessage) (hwf : msg.wf = true) :
    (climate_update_callback (climate_update_callback stc msg).1 msg).1
      = (climate_update_callback stc msg).1
    ∧ (fan_update_callback (fan_update_callback stf msg).1
        (fan_update_callback stf msg).2.1).1
      = (fan_update_callback stf msg).1 := by
  constructor
  · cases msg with
    | disconnect => rfl
    | payload m =>
      cases hev : lookupKey m "evtName" with
      | none => simp [climate_update_callback, hev]
      | some evt =>
        by_cases ho : isOnDataToUI evt
        · cases hd : lookupKey m "data" with
          | none => simp [climate_update_callback, hev, ho, hd]
          | some data =>
            cases data with
            | dict d =>
              have h1 := climateApplyFields_dict d climateFields stc.extra
              have h2 := climateApplyFields_dict d climateFields
                (applyFieldsD stc.extra d climateFields)
              have h3 := applyFieldsD_idem d climateFields (by decide) stc.extra
              simp [climate_update_callback, hev, ho, hd, h1, h2, h3,
                data_to_extra_state_attributes]
            | str s =>
              rcases hres : climateApplyFields stc.extra (.str s) climateFields
                with ⟨e, err⟩
              have h1 : e = stc.extra := by
                have h2 := climateApplyFields_not_dict (.str s) rfl climateFields stc.extra
                rw [hres] at h2
                exact h2
              subst h1
              cases err <;>
                simp [climate_update_callback, hev, ho, hd, hres,
                  data_to_extra_state_attributes]
            | num q =>
              rcases hres : climateApplyFields stc.extra (.num q) climateFields
                with ⟨e, err⟩
              have h1 : e = stc.extra := by
                have h2 := climateApplyFields_not_dict (.num q) rfl climateFields stc.extra
                rw [hres] at h2
                exact h2
              subst h1
              cases err <;>
                simp [climate_update_callback, hev, ho, hd, hres,
                  data_to_extra_state_attributes]
            | bool b =>
              rcases hres : climateApplyFields stc.extra (.bool b) climateFields
                with ⟨e, err⟩
              have h1 : e = stc.extra := by
                have h2 := climateApplyFields_not_dict (.bool b) rfl climateFields stc.extra
                rw [hres] at h2
                exact h2
              subst h1
              cases err <;>
                simp [climate_update_callback, hev, ho, hd, hres,
                  data_to_extra_state_attributes]
        · simp [climate_update_callback, hev, ho]
  · cases msg with
    | disconnect => rfl
    | payload m =>
      cases hev : lookupKey m "evtName" with
      | none => simp [fan_update_callback, hev]
      | some evt =>
        by_cases ho : isOnDataToUI evt
        · cases hd : lookupKey m "data" with
          | none => simp [fan_update_callback, hev, ho, hd]
          | some data =>
            have hwfd : PyVal.wf data = true :=
              wf_dict_lookup m "data" data (by simpa [PushMessage.wf] using hwf) hd
            have hcb := fan_update_callback_payload stf m evt hev (by simpa using ho)
              data hd
            have hev2 : lookupKey (setKey m "data" (fanProcess stf.extra data).2.1)
                "evtName" = some evt := by
              rw [lookupKey_setKey_ne m "data" "evtName" _ (by decide)]
              exact hev
            have hd2 : lookupKey (setKey m "data" (fanProcess stf.extra data).2.1)
                "data" = some (fanProcess stf.extra data).2.1 :=
              lookupKey_setKey_self _ _ _
            have hcb2 := fan_update_callback_payload
              ⟨(fanProcess stf.extra data).1, true⟩ _ evt hev2 (by simpa using ho)
              _ hd2
            rw [hcb]
            simp only []
            rw [hcb2]
            simp [fanProcess_idem stf.extra data hwfd]
        · simp [fan_update_callback, hev, ho]

/-- C9 witness: the idempotence theorem applied at a concrete fan-style
`OnDataToUI` message whose `fan_state.current_speed` gets popped on first
application. -/
theorem c9_witness :
    (climate_update_callback
        (climate_update_callback ⟨[], true⟩
          (.payload [("evtName", .str "OnDataToUI"),
            ("data", .dict [("fan_state", .dict [("current_speed", .num 2)])])])).1
        (.payload [("evtName", .str "OnDataToUI"),
          ("data", .dict [("fan_state", .dict [("current_speed", .num 2)])])])).1
      = (climate_update_callback ⟨[], true⟩
          (.payload [("evtName", .str "OnDataToUI"),
            ("data", .dict [("fan_state", .dict [("current_speed", .num 2)])])])).1
    ∧ (fan_update_callback
        (fan_update_callback ⟨[], true⟩
          (.payload [("evtName", .str "OnDataToUI"),
            ("data", .dict [("fan_state", .dict [("current_speed", .num 2)])])])).1
        (fan_update_callback ⟨[], true⟩
          (.payload [("evtName", .str "OnDataToUI"),
            ("data", .dict [("fan_state", .dict [("current_speed", .num 2)])])])).2.1).1
      = (fan_update_callback ⟨[], true⟩
          (.payload [("evtName", .str "OnDataToUI"),
            ("data", .dict [("fan_state", .dict [("current_speed", .num 2)])])])).1 :=
  c9_reducer_idempotent ⟨[], true⟩ ⟨[], true⟩
    (.payload [("evtName", .str "OnDataToUI"),
      ("data", .dict [("fan_state", .dict [("current_speed", .num 2)])])])
    (by decide)

/-- C10: starting from a store seeded from any snapshot that lacks the key
`TEMPERATURE_F`, no sequence of climate push messages ever creates that
key — the reducer's current-temperature writes go only to
`CURRENT_TEMPERATURE`, `TEMPERATURE`, `CURRENT_TEMPERATURE_F` and
`CURRENT_TEMPERATURE_C` — so the public `current_temperature` read, which
subscripts `TEMPERATURE_F` unguarded, raises `KeyError` instead of
returning an unset result. -/
theorem c10_temperature_f_never_written (snapshot : PyDict)
    (msgs : List PushMessage)
    (h : hasKey snapshot "TEMPERATURE_F" = false) :
    hasKey (runClimateMsgs (seedClimate snapshot) msgs).extra "TEMPERATURE_F" = false
    ∧ current_temperature (runClimateMsgs (seedClimate snapshot) msgs)
        = .error (.keyError "TEMPERATURE_F")
    ∧ ("current_temperature", "CURRENT_TEMPERATURE") ∈ climateFields
    ∧ ("temperature", "TEMPERATURE") ∈ climateFields
    ∧ ("current_temperature_f", "CURRENT_TEMPERATURE_F") ∈ climateFields
    ∧ ("current_temperature_c", "CURRENT_TEMPERATURE_C") ∈ climateFields
    ∧ "TEMPERATURE_F" ∉ climateFields.map Prod.snd := by
  have hne : ("TEMPERATURE_F" : String) ≠ "aux_mode_active" := by decide
  have hseed : hasKey (seedClimate snapshot).extra "TEMPERATURE_F" = false := by
    show hasKey (setKey snapshot "aux_mode_active" (.bool false)) "TEMPERATURE_F" = false
    rw [hasKey_setKey]
    simp [h, hne]
  have hfinal := runClimateMsgs_fresh "TEMPERATURE_F" (by decide) msgs _ hseed
  have hnone : lookupKey (runClimateMsgs (seedClimate snapshot) msgs).extra
      "TEMPERATURE_F" = none := by
    cases hres : lookupKey (runClimateMsgs (seedClimate snapshot) msgs).extra
      "TEMPERATURE_F" with
    | none => rfl
    | some v =>
      unfold hasKey at hfinal
      rw [hres] at hfinal
      simp at hfinal
  exact ⟨hfinal, by simp [current_temperature, hnone], by decide, by decide,
    by decide, by decide, by decide⟩

/-- C10 witness: a concrete snapshot without `TEMPERATURE_F` and a push
message carrying `temperature`: the key is still missing afterwards and the
`current_temperature` read raises `KeyError`. -/
theorem c10_witness :
    hasKey (runClimateMsgs (seedClimate [("HVAC_MODE", .str "Heat")])
      [.payload [("evtName", .str "OnDataToUI"),
        ("data", .dict [("temperature", .num 72)])]]).extra "TEMPERATURE_F" = false
    ∧ current_temperature (runClimateMsgs (seedClimate [("HVAC_MODE", .str "Heat")])
      [.payload [("evtName", .str "OnDataToUI"),
        ("data", .dict [("temperature", .num 72)])]])
      = .error (.keyError "TEMPERATURE_F") := by
  have h := c10_temperature_f_never_written [("HVAC_MODE", .str "Heat")]
    [.payload [("evtName", .str "OnDataToUI"),
      ("data", .dict [("temperature", .num 72)])]] (by decide)
  exact ⟨h.1, h.2.1⟩
